import Mathlib

/-!
# Verification of the `imprev` terminal image previewer

Shallow embedding of `src/main.rs`: the aspect-ratio fitting function
`scale_image`, the color quantizer `rgb_to_256_color`, the frame builder
`build_colormap`, the bitmap printer `print_bitmap` and the per-pass driver
`render`, together with theorems settling the specification claims.

Modelling conventions:
* Rust `u8` values are `Nat` (all arithmetic in the quantizer stays below 256,
  so no wrapping occurs and plain `Nat` arithmetic is faithful).
* Rust `i32` values are `Int`.
* Rust `f32` arithmetic is modelled exactly over `ℚ`; every concrete value a
  claim touches is far from a rounding boundary, so the idealization agrees
  with IEEE single precision there.  The cast `as i32` truncates toward zero,
  modelled by `f32_to_i32`.
* The external OpenCV `Mat` is a structure with row/column counts and a
  fallible per-pixel fetch (`at_2d`); the resampling collaborator
  (`imgproc::resize`) is a parameter of `build_colormap`.
* Writes to stdout/stderr are returned as explicit string lists.
-/

namespace Imprev

/-- Rust `as i32` on a nonnegative-or-negative `f32` value: truncation toward
zero (saturation is irrelevant at the magnitudes that occur here). -/
def f32_to_i32 (q : ℚ) : Int :=
  if q < 0 then -⌊-q⌋ else ⌊q⌋

/-- `const DEFAULT_HEIGHT_RESCALE: f32 = 0.5;` from `main.rs`. -/
def DEFAULT_HEIGHT_RESCALE : ℚ := 1/2

/-- Embedding of `fn scale_image(terminal_wh:(i32,i32), image_wh:(i32,i32),
height_scale: f32) -> (i32, i32)` from `main.rs` lines 31-42.  Note the code
computes `image_ar = image_wh.0 * (1.0/height_scale) / image_wh.1`. -/
def scale_image (terminal_wh : Int × Int) (image_wh : Int × Int)
    (height_scale : ℚ) : Int × Int :=
  let image_ar : ℚ := (image_wh.1 : ℚ) * (1 / height_scale) / (image_wh.2 : ℚ)
  let termi_ar : ℚ := (terminal_wh.1 : ℚ) / (terminal_wh.2 : ℚ)
  if image_ar > termi_ar then
    (terminal_wh.1, f32_to_i32 ((terminal_wh.1 : ℚ) / image_ar))
  else
    (f32_to_i32 ((terminal_wh.2 : ℚ) * image_ar), terminal_wh.2)

/-- Embedding of `fn rgb_to_256_color(r: u8, g: u8, b: u8) -> u8` from
`main.rs` lines 82-93, including the literal grayscale-ramp expression
`(r - 8) / 247 * 24 + 232` (Rust `u8` division truncates, exactly as `Nat`
division does; no intermediate value exceeds 255, so `Nat` is faithful). -/
def rgb_to_256_color (r g b : Nat) : Nat :=
  if r = g ∧ g = b then
    if r < 8 then 16
    else if r > 248 then 231
    else (r - 8) / 247 * 24 + 232
  else 16 + 36 * (r / 51) + 6 * (g / 51) + b / 51

/-- A 3-channel OpenCV pixel (`core::Vec3b`); channel order as stored in the
`Mat`: `c0` = blue, `c1` = green, `c2` = red. -/
structure Vec3b where
  c0 : Nat
  c1 : Nat
  c2 : Nat
deriving DecidableEq

/-- The external OpenCV `Mat`, reduced to what `build_colormap` uses: its row
and column counts and the fallible per-pixel fetch `at_2d`. -/
structure Mat where
  rows : Int
  cols : Int
  at_2d : Int → Int → Except String Vec3b

/-- `Mat::default()`: the empty matrix (0 rows, 0 columns; any fetch fails). -/
def Mat.deflt : Mat :=
  ⟨0, 0, fun _ _ => Except.error "empty Mat"⟩

/-- Left-to-right map over a list in the `Except` monad, aborting at the first
failure — the behavior of a Rust `for` loop whose body applies `?` to each
element. -/
def exceptMap (f : α → Except ε β) : List α → Except ε (List β)
  | [] => Except.ok []
  | a :: l =>
    match f a with
    | Except.error e => Except.error e
    | Except.ok b =>
      match exceptMap f l with
      | Except.error e => Except.error e
      | Except.ok t => Except.ok (b :: t)

/-- Embedding of `fn build_colormap(image: &Mat, dimensions: (i32, i32)) ->
Result<Vec<Vec<u8>>, opencv::Error>` from `main.rs` lines 44-69.  The
resampling collaborator (`imgproc::resize`) is a parameter.  Faithful details:
the source *ignores* the `Result` returned by `resize` (no `?`), so on a
resize failure the out-parameter keeps its `Mat::default()` value; the loop
bounds come from the *resized* matrix, not from `dimensions`; the row is
initialized with zeroes and every index `0..cols` is assigned exactly once in
order, with `?` on each fetch, which is exactly `exceptMap` over the column
range; Rust `0..n` is empty for `n ≤ 0`, as is `List.range n.toNat`. -/
def build_colormap (resize : Mat → Int × Int → Except String Mat)
    (image : Mat) (dimensions : Int × Int) : Except String (List (List Nat)) :=
  let resized : Mat :=
    match resize image dimensions with
    | Except.ok m => m
    | Except.error _ => Mat.deflt
  exceptMap
    (fun (r : Nat) => exceptMap
      (fun (c : Nat) =>
        match resized.at_2d (r : Int) (c : Int) with
        | Except.error e => Except.error e
        | Except.ok p => Except.ok (rgb_to_256_color p.c2 p.c1 p.c0))
      (List.range resized.cols.toNat))
    (List.range resized.rows.toNat)

/-- The escape-coded cell for one palette index: `"\x1B[48;5;{}m \x1B[0m"`
with the index interpolated. -/
def cellEscape (idx : Nat) : String :=
  "\x1B[48;5;" ++ toString idx ++ "m \x1B[0m"

/-- Embedding of `fn print_bitmap(colormap: Vec<Vec<u8>>, dimensions: (i32,
i32))` from `main.rs` lines 71-78, returning the text written to stdout: for
`r in 0..dimensions.1`, for `c in 0..dimensions.0`, print the escape-coded
cell for `colormap[r][c]`, then a newline after each row.  (The source panics
on out-of-bounds indexing; the model reads with a default, which coincides
with the source whenever the grid has the given dimensions — the only case
the claims concern.) -/
def print_bitmap (colormap : List (List Nat)) (dimensions : Int × Int) :
    String :=
  String.join ((List.range dimensions.2.toNat).map (fun r =>
    String.join ((List.range dimensions.1.toNat).map (fun c =>
      cellEscape ((colormap.getD r []).getD c 0))) ++ "\n"))

/-- Embedding of `fn render(image: &Mat, input_dims: (i32, i32)) ->
Result<(), Box<dyn Error>>` from `main.rs` lines 96-117.  The terminal-size
query result and the resampling collaborator are parameters; the value is
`(stdout chunks, stderr chunks, returned Result)`.  On a failed query the
source prints the error to stderr and returns `Ok(())` before any stdout
write; otherwise it fits, builds and prints, reporting a build failure to
stderr, and always prints the exit hint and returns `Ok(())`. -/
def render (term : Except String (Int × Int))
    (resize : Mat → Int × Int → Except String Mat)
    (image : Mat) (input_dims : Int × Int) :
    List String × List String × Except String Unit :=
  match term with
  | Except.error e =>
      ([], ["Error getting terminal size: " ++ e], Except.ok ())
  | Except.ok (w, h) =>
      let new_dimensions : Int × Int :=
        scale_image (w, h) input_dims DEFAULT_HEIGHT_RESCALE
      match build_colormap resize image new_dimensions with
      | Except.ok colormap =>
          ([print_bitmap colormap new_dimensions, "Press Ctrl-C to Exit\n"],
            [], Except.ok ())
      | Except.error e =>
          (["Press Ctrl-C to Exit\n"], ["Error: " ++ e], Except.ok ())

/-- Spec-side description of the Renderer output (§4.4 / claim C8), written
from the spec's words, for comparison with `print_bitmap`: in the grid's own
row-major order, one escape-coded cell per entry, a newline after each row. -/
def specRowMajorOutput (grid : List (List Nat)) : String :=
  String.join (grid.map (fun row =>
    String.join (row.map cellEscape) ++ "\n"))

end Imprev

-- quick sanity checks of the embedding
example : Imprev.rgb_to_256_color 255 0 0 = 196 := by decide
example : Imprev.rgb_to_256_color 128 128 128 = 232 := by decide
example : Imprev.rgb_to_256_color 7 7 7 = 16 := by decide
example : Imprev.rgb_to_256_color 249 249 249 = 231 := by decide
example : Imprev.scale_image (80, 24) (1920, 1080) (1/2) = (80, 22) := by
  norm_num [Imprev.scale_image, Imprev.f32_to_i32]
example : Imprev.scale_image (80, 24) (1, 1000) (1/2) = (0, 24) := by
  norm_num [Imprev.scale_image, Imprev.f32_to_i32]
example : Imprev.scale_image (80, 24) (5, 3) (1/2) = (80, 24) := by
  norm_num [Imprev.scale_image, Imprev.f32_to_i32]

namespace Imprev

/-- C1: the literal grayscale-ramp expression `(r - 8) / 247 * 24 + 232` of
`rgb_to_256_color` maps every gray value in `[8, 248]` to the single constant
index 232, because `(v - 8) / 247 = 0` for all such `v`.  This contradicts the
claim's requirement that the mapping not collapse all mid-gray values to one
constant index (the spec itself flags this ordering as a defect). -/
theorem gray_ramp_collapses_to_232 (v : Nat) (h8 : 8 ≤ v) (h248 : v ≤ 248) :
    rgb_to_256_color v v v = 232 := by
  have hdiv : (v - 8) / 247 = 0 := Nat.div_eq_of_lt (by omega)
  simp only [rgb_to_256_color, and_self, if_true]
  rw [if_neg (by omega), if_neg (by omega), hdiv]

/-- Witness for C1 at the spec's representative gray values 16, 128 and 240:
all three land on index 232. -/
theorem gray_ramp_collapses_to_232_witness :
    rgb_to_256_color 16 16 16 = 232 ∧ rgb_to_256_color 128 128 128 = 232 ∧
      rgb_to_256_color 240 240 240 = 232 :=
  ⟨gray_ramp_collapses_to_232 16 (by decide) (by decide),
    gray_ramp_collapses_to_232 128 (by decide) (by decide),
    gray_ramp_collapses_to_232 240 (by decide) (by decide)⟩

/-- C5: on every non-gray 8-bit triple, `rgb_to_256_color` returns
`16 + 36·⌊r/51⌋ + 6·⌊g/51⌋ + ⌊b/51⌋`, the result lies in `[16, 231]`, and in
particular (255,0,0) maps to 196. -/
theorem cube_quantization :
    (∀ r g b : Nat, r ≤ 255 → g ≤ 255 → b ≤ 255 → ¬(r = g ∧ g = b) →
      rgb_to_256_color r g b = 16 + 36 * (r / 51) + 6 * (g / 51) + b / 51 ∧
        16 ≤ rgb_to_256_color r g b ∧ rgb_to_256_color r g b ≤ 231) ∧
    rgb_to_256_color 255 0 0 = 196 := by
  refine ⟨fun r g b hr hg hb hne => ?_, by decide⟩
  have heq : rgb_to_256_color r g b =
      16 + 36 * (r / 51) + 6 * (g / 51) + b / 51 := by
    simp [rgb_to_256_color, hne]
  refine ⟨heq, ?_, ?_⟩ <;> rw [heq] <;> omega

/-- Witness for C5 at the non-gray triple (200, 100, 50). -/
theorem cube_quantization_witness :
    rgb_to_256_color 200 100 50 =
        16 + 36 * (200 / 51) + 6 * (100 / 51) + 50 / 51 ∧
      16 ≤ rgb_to_256_color 200 100 50 ∧ rgb_to_256_color 200 100 50 ≤ 231 :=
  cube_quantization.1 200 100 50 (by decide) (by decide) (by decide)
    (by decide)

/-- C2 counterexample: on image (1920,1080), terminal (80,24), compression
0.5, `scale_image` does **not** return (21, 24) as the claim states. -/
theorem scale_image_1920_1080_not_21_24 :
    scale_image (80, 24) (1920, 1080) (1/2) ≠ (21, 24) := by
  norm_num [scale_image, f32_to_i32]

/-- C2 amended: the code computes the effective image aspect as
`width × (1/0.5) / height = 1920×2/1080 = 3.555… > 80/24`, classifies the
image as *wider* than the terminal, and returns
`(80, trunc(80 / 3.555…)) = (80, 22)`. -/
theorem scale_image_1920_1080_eq_80_22 :
    ((1920 : ℚ) * (1 / (1/2)) / 1080 > (80 : ℚ) / 24) ∧
      scale_image (80, 24) (1920, 1080) (1/2) = (80, 22) := by
  constructor
  · norm_num
  · norm_num [scale_image, f32_to_i32]

/-- C10: `scale_image` can return a zero component: for the positive inputs
terminal (80,24), image (1,1000), compression 0.5, the computed width
`24 × (1×2/1000) = 0.048` truncates to 0, so the returned target dimensions
are not positive. -/
theorem scale_image_can_return_zero :
    scale_image (80, 24) (1, 1000) (1/2) = (0, 24) ∧
      ¬ 0 < (scale_image (80, 24) (1, 1000) (1/2)).1 := by
  have h : scale_image (80, 24) (1, 1000) (1/2) = (0, 24) := by
    norm_num [scale_image, f32_to_i32]
  rw [h]
  simp

/-- C4 counterexample: on terminal (80,24) and image (5,3) (whose effective
aspect 5×2/3 equals the terminal aspect 80/24 exactly), `scale_image` returns
(80, 24): *both* dimensions equal their terminal bound, so "exactly one
dimension equals its bound" fails. -/
theorem scale_image_exactly_one_fails :
    ¬(((scale_image (80, 24) (5, 3) (1/2)).1 = 80 ∧
        (scale_image (80, 24) (5, 3) (1/2)).2 ≠ 24) ∨
      ((scale_image (80, 24) (5, 3) (1/2)).1 ≠ 80 ∧
        (scale_image (80, 24) (5, 3) (1/2)).2 = 24)) := by
  have h : scale_image (80, 24) (5, 3) (1/2) = (80, 24) := by
    norm_num [scale_image, f32_to_i32]
  rw [h]
  simp

/-- C4 amended: for every positive terminal dimensions, positive image
dimensions and positive compression factor, the target returned by
`scale_image` satisfies `width ≤ columns`, `height ≤ rows`, and *at least*
one of the two dimensions equals its terminal bound (both may, exactly when
the two aspect ratios coincide). -/
theorem scale_image_fits (tc tr iw ih : Int) (hs : ℚ)
    (htc : 0 < tc) (htr : 0 < tr) (hiw : 0 < iw) (hih : 0 < ih)
    (hhs : 0 < hs) :
    (scale_image (tc, tr) (iw, ih) hs).1 ≤ tc ∧
      (scale_image (tc, tr) (iw, ih) hs).2 ≤ tr ∧
      ((scale_image (tc, tr) (iw, ih) hs).1 = tc ∨
        (scale_image (tc, tr) (iw, ih) hs).2 = tr) := by
  have htcQ : (0 : ℚ) < (tc : ℚ) := by exact_mod_cast htc
  have htrQ : (0 : ℚ) < (tr : ℚ) := by exact_mod_cast htr
  have hiwQ : (0 : ℚ) < (iw : ℚ) := by exact_mod_cast hiw
  have hihQ : (0 : ℚ) < (ih : ℚ) := by exact_mod_cast hih
  have hA : (0 : ℚ) < (iw : ℚ) * (1 / hs) / (ih : ℚ) :=
    div_pos (mul_pos hiwQ (by positivity)) hihQ
  set A : ℚ := (iw : ℚ) * (1 / hs) / (ih : ℚ) with hAdef
  have hT : (0 : ℚ) < (tc : ℚ) / (tr : ℚ) := div_pos htcQ htrQ
  simp only [scale_image]
  split_ifs with hcmp
  · -- image relatively wider: width pinned to the terminal columns
    refine ⟨le_refl tc, ?_, Or.inl rfl⟩
    have hq : (0 : ℚ) ≤ (tc : ℚ) / A := le_of_lt (div_pos htcQ hA)
    have hlt : (tc : ℚ) / A < (tr : ℚ) := by
      have h1 : (tc : ℚ) / A < (tc : ℚ) / ((tc : ℚ) / (tr : ℚ)) :=
        div_lt_div_of_pos_left htcQ hT hcmp
      have h2 : (tc : ℚ) / ((tc : ℚ) / (tr : ℚ)) = (tr : ℚ) := by
        rw [div_div_eq_mul_div, mul_comm, mul_div_assoc,
          div_self (ne_of_gt htcQ), mul_one]
      rwa [h2] at h1
    have hfl : f32_to_i32 ((tc : ℚ) / A) = ⌊(tc : ℚ) / A⌋ := by
      rw [f32_to_i32, if_neg (not_lt.mpr hq)]
    rw [hfl]
    exact le_of_lt (Int.floor_lt.mpr hlt)
  · -- image relatively narrower (or equal aspect): height pinned to rows
    refine ⟨?_, le_refl tr, Or.inr rfl⟩
    have hcmp2 : A ≤ (tc : ℚ) / (tr : ℚ) := not_lt.mp hcmp
    have hq : (0 : ℚ) ≤ (tr : ℚ) * A := le_of_lt (mul_pos htrQ hA)
    have hle : (tr : ℚ) * A ≤ (tc : ℚ) := by
      have h1 : (tr : ℚ) * A ≤ (tr : ℚ) * ((tc : ℚ) / (tr : ℚ)) :=
        mul_le_mul_of_nonneg_left hcmp2 (le_of_lt htrQ)
      have h2 : (tr : ℚ) * ((tc : ℚ) / (tr : ℚ)) = (tc : ℚ) := by
        rw [mul_comm, div_mul_cancel₀ _ (ne_of_gt htrQ)]
      rwa [h2] at h1
    have hfl : f32_to_i32 ((tr : ℚ) * A) = ⌊(tr : ℚ) * A⌋ := by
      rw [f32_to_i32, if_neg (not_lt.mpr hq)]
    rw [hfl]
    calc ⌊(tr : ℚ) * A⌋ ≤ ⌊(tc : ℚ)⌋ := Int.floor_le_floor hle
      _ = tc := Int.floor_intCast tc

/-- Witness for C4 (amended) at terminal (80,24), image (1920,1080),
compression 1/2. -/
theorem scale_image_fits_witness :
    (scale_image (80, 24) (1920, 1080) (1/2)).1 ≤ 80 ∧
      (scale_image (80, 24) (1920, 1080) (1/2)).2 ≤ 24 ∧
      ((scale_image (80, 24) (1920, 1080) (1/2)).1 = 80 ∨
        (scale_image (80, 24) (1920, 1080) (1/2)).2 = 24) :=
  scale_image_fits 80 24 1920 1080 (1/2) (by norm_num) (by norm_num)
    (by norm_num) (by norm_num) (by norm_num)

/-- C9: `scale_image` with the program's compression factor 1/2 is
scale-invariant in the image: doubling both image width and height yields the
same target dimensions, because `(2w)·(1/hs)/(2h) = w·(1/hs)/h`. -/
theorem scale_image_scale_invariant (tc tr iw ih : Int)
    (htc : 0 < tc) (htr : 0 < tr) (hiw : 0 < iw) (hih : 0 < ih) :
    scale_image (tc, tr) (2 * iw, 2 * ih) (1/2) =
      scale_image (tc, tr) (iw, ih) (1/2) := by
  have hihQ : ((ih : ℚ)) ≠ 0 := by
    exact_mod_cast ne_of_gt hih
  have har : ((2 * iw : Int) : ℚ) * (1 / (1/2 : ℚ)) / ((2 * ih : Int) : ℚ) =
      (iw : ℚ) * (1 / (1/2 : ℚ)) / (ih : ℚ) := by
    push_cast
    field_simp
    ring
  simp only [scale_image]
  rw [har]

/-- Witness for C9 at terminal (80,24), image (1920,1080). -/
theorem scale_image_scale_invariant_witness :
    scale_image (80, 24) (2 * 1920, 2 * 1080) (1/2) =
      scale_image (80, 24) (1920, 1080) (1/2) :=
  scale_image_scale_invariant 80 24 1920 1080 (by norm_num) (by norm_num)
    (by norm_num) (by norm_num)

/-- When every element maps successfully, `exceptMap` succeeds with the plain
map. -/
theorem exceptMap_ok (f : α → Except ε β) (g : α → β) :
    ∀ l : List α, (∀ a ∈ l, f a = Except.ok (g a)) →
      exceptMap f l = Except.ok (l.map g) := by
  intro l
  induction l with
  | nil => intro _; rfl
  | cons a t ih =>
    intro h
    have ha : f a = Except.ok (g a) := h a (List.mem_cons_self a t)
    have ht : exceptMap f t = Except.ok (t.map g) :=
      ih (fun x hx => h x (List.mem_cons_of_mem a hx))
    simp [exceptMap, ha, ht]

/-- C3: `build_colormap` does **not** fail when the resampling collaborator
fails.  The source ignores the `Result` of `imgproc::resize`, so the output
matrix keeps its empty `Mat::default()` value and the function returns
`Ok` with an empty grid — a successful result despite the resample failure,
contradicting the spec's whole-frame-failure policy.  (A per-pixel fetch
failure, by contrast, is propagated with `?`.) -/
theorem build_colormap_ignores_resize_failure :
    build_colormap (fun _ _ => Except.error "resize failed")
      ⟨4, 4, fun _ _ => Except.ok ⟨1, 2, 3⟩⟩ (10, 10) = Except.ok [] :=
  rfl

/-- C6: if the resampling collaborator succeeds with a matrix of exactly the
requested dimensions (its contract) and every in-range pixel fetch succeeds,
then `build_colormap` succeeds with a grid of exactly `height` rows and
`width` columns whose every cell is the quantizer index of the sample at that
cell, with the stored blue-green-red channel order normalized to
red-green-blue (`rgb_to_256_color p.c2 p.c1 p.c0` for a BGR sample `p`). -/
theorem build_colormap_grid (resize : Mat → Int × Int → Except String Mat)
    (image m : Mat) (pix : Nat → Nat → Vec3b) (w h : Int)
    (hw : 0 < w) (hh : 0 < h)
    (hok : resize image (w, h) = Except.ok m)
    (hrows : m.rows = h) (hcols : m.cols = w)
    (hpix : ∀ r c : Nat, r < h.toNat → c < w.toNat →
      m.at_2d (r : Int) (c : Int) = Except.ok (pix r c)) :
    ∃ grid, build_colormap resize image (w, h) = Except.ok grid ∧
      grid.length = h.toNat ∧
      (∀ row ∈ grid, row.length = w.toNat) ∧
      ∀ r c : Nat, r < h.toNat → c < w.toNat →
        (grid.getD r []).getD c 0 =
          rgb_to_256_color (pix r c).c2 (pix r c).c1 (pix r c).c0 := by
  refine ⟨(List.range h.toNat).map (fun r => (List.range w.toNat).map
    (fun c => rgb_to_256_color (pix r c).c2 (pix r c).c1 (pix r c).c0)),
    ?_, by simp, by simp, ?_⟩
  · rw [build_colormap]
    rw [hok]
    simp only [hrows, hcols]
    refine exceptMap_ok _ _ _ (fun r hr => ?_)
    have hrlt : r < h.toNat := List.mem_range.mp hr
    refine exceptMap_ok _ _ _ (fun c hc => ?_)
    have hclt : c < w.toNat := List.mem_range.mp hc
    rw [hpix r c hrlt hclt]
  · intro r c hr hc
    have h1 : ((List.range h.toNat).map (fun r => (List.range w.toNat).map
        (fun c => rgb_to_256_color (pix r c).c2 (pix r c).c1
          (pix r c).c0))).getD r [] =
        (List.range w.toNat).map (fun c =>
          rgb_to_256_color (pix r c).c2 (pix r c).c1 (pix r c).c0) := by
      rw [List.getD_eq_getElem _ _ (by simpa using hr)]
      simp
    rw [h1, List.getD_eq_getElem _ _ (by simpa using hc)]
    simp

/-- Witness for C6: a collaborator returning a 2×3 matrix of the constant BGR
sample (10, 20, 30), requested dimensions (3, 2). -/
theorem build_colormap_grid_witness :
    ∃ grid, build_colormap
        (fun _ _ => Except.ok ⟨2, 3, fun _ _ => Except.ok ⟨10, 20, 30⟩⟩)
        Mat.deflt (3, 2) = Except.ok grid ∧
      grid.length = (2 : Int).toNat ∧
      (∀ row ∈ grid, row.length = (3 : Int).toNat) ∧
      ∀ r c : Nat, r < (2 : Int).toNat → c < (3 : Int).toNat →
        (grid.getD r []).getD c 0 = rgb_to_256_color 30 20 10 :=
  build_colormap_grid (fun _ _ =>
      Except.ok ⟨2, 3, fun _ _ => Except.ok ⟨10, 20, 30⟩⟩)
    Mat.deflt ⟨2, 3, fun _ _ => Except.ok ⟨10, 20, 30⟩⟩
    (fun _ _ => ⟨10, 20, 30⟩) 3 2 (by norm_num) (by norm_num)
    rfl rfl rfl (fun _ _ _ _ => rfl)

/-- C7: a failed terminal-size query is reported to stderr, nothing is
written to stdout, and `render` returns `Ok(())` — the pass is skipped
without escaping error; a subsequent pass with a successful query (and a
succeeding frame build) produces the full render: the printed bitmap
followed by the exit hint. -/
theorem render_survives_query_failure (e : String)
    (resize : Mat → Int × Int → Except String Mat) (image : Mat)
    (input_dims : Int × Int) (w h : Int) (grid : List (List Nat))
    (hbuild : build_colormap resize image
      (scale_image (w, h) input_dims DEFAULT_HEIGHT_RESCALE) =
        Except.ok grid) :
    render (Except.error e) resize image input_dims =
      ([], ["Error getting terminal size: " ++ e], Except.ok ()) ∧
    render (Except.ok (w, h)) resize image input_dims =
      ([print_bitmap grid
          (scale_image (w, h) input_dims DEFAULT_HEIGHT_RESCALE),
        "Press Ctrl-C to Exit\n"], [], Except.ok ()) := by
  constructor
  · rfl
  · simp only [render, hbuild]

/-- Witness for C7: terminal query "boom" fails, then a successful query
(3, 2) on a 3×4 image with a collaborator resampling to a 2×3 matrix of
solid red (BGR (0,0,255)) renders the full 2×3 frame of index 196. -/
theorem render_survives_query_failure_witness :
    render (Except.error "boom")
        (fun _ _ => Except.ok ⟨2, 3, fun _ _ => Except.ok ⟨0, 0, 255⟩⟩)
        Mat.deflt (3, 4) =
      ([], ["Error getting terminal size: " ++ "boom"], Except.ok ()) ∧
    render (Except.ok (3, 2))
        (fun _ _ => Except.ok ⟨2, 3, fun _ _ => Except.ok ⟨0, 0, 255⟩⟩)
        Mat.deflt (3, 4) =
      ([print_bitmap [[196, 196, 196], [196, 196, 196]]
          (scale_image (3, 2) (3, 4) DEFAULT_HEIGHT_RESCALE),
        "Press Ctrl-C to Exit\n"], [], Except.ok ()) :=
  render_survives_query_failure "boom"
    (fun _ _ => Except.ok ⟨2, 3, fun _ _ => Except.ok ⟨0, 0, 255⟩⟩)
    Mat.deflt (3, 4) 3 2 [[196, 196, 196], [196, 196, 196]] rfl

/-- Reading a list of known length through `getD` on the index range recovers
a plain map over the list. -/
theorem rangeMap_getD (f : α → β) (d : α) :
    ∀ (l : List α) (n : Nat), l.length = n →
      (List.range n).map (fun i => f (l.getD i d)) = l.map f := by
  intro l
  induction l with
  | nil =>
    intro n hn
    simp [← hn]
  | cons a t ih =>
    intro n hn
    subst hn
    rw [List.length_cons, List.range_succ_eq_map, List.map_cons,
      List.map_map]
    simp only [Function.comp, List.getD_cons_zero, List.getD_cons_succ]
    rw [List.map_cons]
    congr 1
    exact ih t.length rfl

/-- Refinement of the Renderer output: on a grid with exactly the given
dimensions, the index-driven `print_bitmap` loop emits precisely the
grid's own row-major rendering described by the spec. -/
theorem print_bitmap_eq_spec (w h : Int) (grid : List (List Nat))
    (hlen : grid.length = h.toNat)
    (hrow : ∀ row ∈ grid, row.length = w.toNat) :
    print_bitmap grid (w, h) = specRowMajorOutput grid := by
  rw [print_bitmap, specRowMajorOutput]
  have houter := rangeMap_getD
    (fun row => String.join ((List.range w.toNat).map (fun c =>
      cellEscape (List.getD row c 0))) ++ "\n") ([] : List Nat) grid h.toNat
    hlen
  simp only at houter ⊢
  rw [houter]
  congr 1
  refine List.map_congr_left (fun row hmem => ?_)
  congr 1
  congr 1
  exact rangeMap_getD cellEscape 0 row w.toNat (hrow row hmem)

/-- C8: the full stdout of a successful render pass is exactly the grid's
row-major rendering — for each cell, in rows top-to-bottom and cells
left-to-right, the background escape `ESC[48;5;<index>m`, one space and the
reset `ESC[0m`; a newline after each row; and after all rows the single line
"Press Ctrl-C to Exit". -/
theorem render_output_row_major (tw th w h : Int) (grid : List (List Nat))
    (resize : Mat → Int × Int → Except String Mat) (image : Mat)
    (input_dims : Int × Int)
    (hscale : scale_image (tw, th) input_dims DEFAULT_HEIGHT_RESCALE =
      (w, h))
    (hbuild : build_colormap resize image (w, h) = Except.ok grid)
    (hlen : grid.length = h.toNat)
    (hrow : ∀ row ∈ grid, row.length = w.toNat) :
    (render (Except.ok (tw, th)) resize image input_dims).1 =
      [specRowMajorOutput grid, "Press Ctrl-C to Exit\n"] := by
  simp only [render, hscale, hbuild]
  rw [print_bitmap_eq_spec w h grid hlen hrow]

/-- Witness for C8: the solid-red 2×3 render of the C7 scenario, whose stdout
is exactly the row-major rendering of `[[196,196,196],[196,196,196]]`
followed by the exit hint. -/
theorem render_output_row_major_witness :
    (render (Except.ok (3, 2))
        (fun _ _ => Except.ok ⟨2, 3, fun _ _ => Except.ok ⟨0, 0, 255⟩⟩)
        Mat.deflt (3, 4)).1 =
      [specRowMajorOutput [[196, 196, 196], [196, 196, 196]],
        "Press Ctrl-C to Exit\n"] :=
  render_output_row_major 3 2 3 2 [[196, 196, 196], [196, 196, 196]]
    (fun _ _ => Except.ok ⟨2, 3, fun _ _ => Except.ok ⟨0, 0, 255⟩⟩)
    Mat.deflt (3, 4)
    (by norm_num [scale_image, f32_to_i32, DEFAULT_HEIGHT_RESCALE])
    rfl rfl (by intro row hmem; fin_cases hmem <;> rfl)

end Imprev
